import Mathlib

/-
A shallow embedding of the fitness-tracker module (src/homework.py).

Numeric values are modelled as rationals; the arithmetic of the source is
over Python floats, but every formula in the module is a composition of
ring operations, one floor division and one division, so the rational
semantics tracks the source expression for expression.  Python exceptions
(ZeroDivisionError, NotImplementedError, ValueError) are modelled with
Except.
-/

namespace FitnessTracker

/-- Embedding of the dataclass `InfoMessage` (fields in declaration order). -/
structure InfoMessage where
  training_type : String
  duration : ℚ
  distance : ℚ
  speed : ℚ
  calories : ℚ
  deriving DecidableEq

/-- Round a rational to the nearest integer, ties to even: the rounding used
by `format` / `{:.3f}` in the source's message rendering. -/
def roundHalfEven (q : ℚ) : ℤ :=
  let f := ⌊q⌋
  let r := q - f
  if r < 1 / 2 then f
  else if 1 / 2 < r then f + 1
  else if f % 2 = 0 then f else f + 1

/-- Render a rational like Python's `{:.3f}`: sign, integer part, a dot and
exactly three fractional digits (value rounded at the third decimal). -/
def formatFix3 (q : ℚ) : String :=
  let n := roundHalfEven (q * 1000)
  let sgn := if n < 0 then "-" else ""
  let m := n.natAbs
  sgn ++ toString (m / 1000) ++ "." ++
    String.mk [Nat.digitChar (m / 100 % 10), Nat.digitChar (m / 10 % 10),
      Nat.digitChar (m % 10)]

/-- Embedding of `InfoMessage.get_message`: the source's `MESSAGE` template
(`'Тип тренировки: {training_type}; Длительность: {duration:.3f} ч.; …'`)
instantiated with the record's fields. -/
def get_message (m : InfoMessage) : String :=
  "Тип тренировки: " ++ m.training_type ++
  "; Длительность: " ++ formatFix3 m.duration ++
  " ч.; Дистанция: " ++ formatFix3 m.distance ++
  " км; Ср. скорость: " ++ formatFix3 m.speed ++
  " км/ч; Потрачено ккал: " ++ formatFix3 m.calories ++ "."

/-- The class hierarchy `Training` / `Running` / `SportsWalking` / `Swimming`
as a sum type.  `base` is a direct instance of the abstract class `Training`
(constructible in the source, since Python has no abstract-class enforcement
here). -/
inductive Training where
  | base (action duration weight : ℚ)
  | running (action duration weight : ℚ)
  | sportsWalking (action duration weight height : ℚ)
  | swimming (action duration weight length_pool count_pool : ℚ)
  deriving DecidableEq

namespace Training

/-- Field `action` (first constructor argument of every variant). -/
def action : Training → ℚ
  | base a _ _ => a
  | running a _ _ => a
  | sportsWalking a _ _ _ => a
  | swimming a _ _ _ _ => a

/-- Field `duration` (second constructor argument of every variant). -/
def duration : Training → ℚ
  | base _ d _ => d
  | running _ d _ => d
  | sportsWalking _ d _ _ => d
  | swimming _ d _ _ _ => d

/-- Field `weight` (third constructor argument of every variant). -/
def weight : Training → ℚ
  | base _ _ w => w
  | running _ _ w => w
  | sportsWalking _ _ w _ => w
  | swimming _ _ w _ _ => w

/-- Class attribute `LEN_STEP`: 0.65 on `Training` (inherited by `Running`
and `SportsWalking`), overridden to 1.38 on `Swimming`. -/
def LEN_STEP : Training → ℚ
  | swimming _ _ _ _ _ => 1.38
  | _ => 0.65

/-- `self.__class__.__name__`. -/
def className : Training → String
  | base _ _ _ => "Training"
  | running _ _ _ => "Running"
  | sportsWalking _ _ _ _ => "SportsWalking"
  | swimming _ _ _ _ _ => "Swimming"

end Training

/-- Class attribute `M_IN_KM`. -/
def M_IN_KM : ℚ := 1000

/-- Class attribute `MINUTES_IN_HOUR`. -/
def MINUTES_IN_HOUR : ℚ := 60

/-- `Running.RATE_CALORIE`. -/
def RATE_CALORIE : ℚ := 18

/-- `Running.CORRECT_CALORIE`. -/
def CORRECT_CALORIE : ℚ := 20

/-- `SportsWalking.RATE_WEIGHT`. -/
def RATE_WEIGHT : ℚ := 0.035

/-- `SportsWalking.FACTOR_WALK`. -/
def FACTOR_WALK : ℚ := 0.029

/-- `Swimming.CORRECT_SPEED`. -/
def CORRECT_SPEED : ℚ := 1.1

/-- `Swimming.FACTOR_SPEED`. -/
def FACTOR_SPEED : ℚ := 2

/-- Python run-time exceptions the module can raise while computing. -/
inductive PyError where
  | zeroDivision
  | notImplementedError (message : String)
  deriving DecidableEq

/-- `Training.get_distance` (the `Swimming` override has the identical body
`self.action * self.LEN_STEP / self.M_IN_KM`; with the dynamic `LEN_STEP`
attribute both collapse to one function).  The only division is by the
constant 1000, so the operation is total. -/
def get_distance (t : Training) : ℚ :=
  t.action * t.LEN_STEP / M_IN_KM

/-- `Training.get_mean_speed` (`get_distance() / duration`) and the
`Swimming` override (`length_pool * count_pool / M_IN_KM / duration`).
Division by a zero `duration` raises ZeroDivisionError in Python. -/
def get_mean_speed (t : Training) : Except PyError ℚ :=
  match t with
  | .swimming _ d _ lp cp =>
      if d = 0 then .error .zeroDivision
      else .ok (lp * cp / M_IN_KM / d)
  | _ =>
      if t.duration = 0 then .error .zeroDivision
      else .ok (get_distance t / t.duration)

/-- `get_spent_calories`: abstract on `Training` (raises
NotImplementedError with the class name in the message), concrete on the
three subclasses.  The walking formula floor-divides the squared speed by
`height` (Python `//`, floor toward negative infinity; ZeroDivisionError on
a zero `height`). -/
def get_spent_calories (t : Training) : Except PyError ℚ :=
  match t with
  | .base a d w =>
      .error (.notImplementedError
        ("Определить метод get_spent_calories в " ++
          (Training.base a d w).className))
  | .running _ d w =>
      match get_mean_speed t with
      | .error e => .error e
      | .ok v =>
          .ok ((RATE_CALORIE * v - CORRECT_CALORIE)
            * w / M_IN_KM * d * MINUTES_IN_HOUR)
  | .sportsWalking _ d w h =>
      match get_mean_speed t with
      | .error e => .error e
      | .ok v =>
          if h = 0 then .error .zeroDivision
          else
            .ok ((RATE_WEIGHT * w + (⌊v ^ 2 / h⌋ : ℚ) * FACTOR_WALK * w)
              * d * MINUTES_IN_HOUR)
  | .swimming _ _ w _ _ =>
      match get_mean_speed t with
      | .error e => .error e
      | .ok v => .ok ((v + CORRECT_SPEED) * FACTOR_SPEED * w)

/-- `Training.show_training_info`: builds the `InfoMessage` from the class
name, `duration`, and the three derived quantities (argument evaluation
order of the source: distance, then mean speed, then calories). -/
def show_training_info (t : Training) : Except PyError InfoMessage :=
  let dist := get_distance t
  match get_mean_speed t with
  | .error e => .error e
  | .ok v =>
      match get_spent_calories t with
      | .error e => .error e
      | .ok c => .ok ⟨t.className, t.duration, dist, v, c⟩

/-- The `ValueError` raised by `read_package` (`'Ошибка данных от датчиков
<{workout_type}: {data}>'`), carrying the offending code and parameter
list. -/
inductive DispatchError where
  | invalidWorkoutData (workout_type : String) (data : List ℚ)
  deriving DecidableEq

/-- `read_package`: look the code up in the dict
`{'SWM': Swimming, 'RUN': Running, 'WLK': SportsWalking}` and construct the
class with the parameter list splatted positionally; a failed lookup
(KeyError) or an arity mismatch (TypeError) is caught and re-raised as the
single ValueError above. -/
def read_package (workout_type : String) (data : List ℚ) :
    Except DispatchError Training :=
  if workout_type = "SWM" then
    match data with
    | [a, d, w, lp, cp] => .ok (.swimming a d w lp cp)
    | _ => .error (.invalidWorkoutData workout_type data)
  else if workout_type = "RUN" then
    match data with
    | [a, d, w] => .ok (.running a d w)
    | _ => .error (.invalidWorkoutData workout_type data)
  else if workout_type = "WLK" then
    match data with
    | [a, d, w, h] => .ok (.sportsWalking a d w h)
    | _ => .error (.invalidWorkoutData workout_type data)
  else .error (.invalidWorkoutData workout_type data)

/-- The characters after the last dot of a string (the rendered decimal
digits of a formatted number, when the string is a fixed-point numeral). -/
def decimalPart (s : String) : List Char :=
  (s.data.reverse.takeWhile (fun c => c != '.')).reverse

/-- Boolean string-suffix test. -/
def hasSuffixStr (s t : String) : Bool :=
  List.isSuffixOf t.data s.data

/-- The numeric inputs that feed `get_mean_speed` are non-negative:
`action` for the variants that use `get_distance`, pool length and lap
count for `Swimming`. -/
def speedInputsNonneg : Training → Prop
  | .base a _ _ => 0 ≤ a
  | .running a _ _ => 0 ≤ a
  | .sportsWalking a _ _ _ => 0 ≤ a
  | .swimming a _ _ lp cp => 0 ≤ a ∧ 0 ≤ lp ∧ 0 ≤ cp

/-! ### Helper lemmas (shared between claims) -/

theorem data_append (a b : String) : (a ++ b).data = a.data ++ b.data := by
  cases a; cases b; rfl

theorem digitChar_props : ∀ k, k < 10 →
    (Nat.digitChar k).isDigit = true ∧ (Nat.digitChar k != '.') = true := by
  decide

theorem decimalPart_append3 (x : String) (c1 c2 c3 : Char)
    (h1 : (c1 != '.') = true) (h2 : (c2 != '.') = true)
    (h3 : (c3 != '.') = true) :
    decimalPart (x ++ "." ++ String.mk [c1, c2, c3]) = [c1, c2, c3] := by
  have hd : (x ++ "." ++ String.mk [c1, c2, c3]).data
      = x.data ++ '.' :: [c1, c2, c3] := by
    simp [data_append]
  simp [decimalPart, hd, List.takeWhile, h1, h2, h3]

theorem formatFix3_shape (q : ℚ) :
    ∃ x : String, ∃ k1 k2 k3 : ℕ, k1 < 10 ∧ k2 < 10 ∧ k3 < 10 ∧
      formatFix3 q = x ++ "." ++
        String.mk [Nat.digitChar k1, Nat.digitChar k2, Nat.digitChar k3] := by
  refine ⟨(if roundHalfEven (q * 1000) < 0 then "-" else "") ++
      toString ((roundHalfEven (q * 1000)).natAbs / 1000),
    (roundHalfEven (q * 1000)).natAbs / 100 % 10,
    (roundHalfEven (q * 1000)).natAbs / 10 % 10,
    (roundHalfEven (q * 1000)).natAbs % 10,
    Nat.mod_lt _ (by norm_num), Nat.mod_lt _ (by norm_num),
    Nat.mod_lt _ (by norm_num), rfl⟩

theorem fmt_one : formatFix3 1 = "1.000" := by
  have h : roundHalfEven ((1 : ℚ) * 1000) = 1000 := by
    norm_num [roundHalfEven]
  simp only [formatFix3, h]
  decide

theorem fmt_975 : formatFix3 9.75 = "9.750" := by
  have h : roundHalfEven ((9.75 : ℚ) * 1000) = 9750 := by
    norm_num [roundHalfEven]
  simp only [formatFix3, h]
  decide

theorem fmt_69975 : formatFix3 699.75 = "699.750" := by
  have h : roundHalfEven ((699.75 : ℚ) * 1000) = 699750 := by
    norm_num [roundHalfEven]
  simp only [formatFix3, h]
  decide

/-! ### Claim theorems -/

/-- C7: for every Running record, `get_distance()` is `action * 0.65 / 1000`;
the step length 0.65 is shared with SportsWalking, while Swimming uses
1.38. -/
theorem get_distance_step_length :
    (∀ a d w : ℚ, get_distance (Training.running a d w) = a * 0.65 / 1000)
    ∧ (∀ a d w h : ℚ,
        get_distance (Training.sportsWalking a d w h) = a * 0.65 / 1000)
    ∧ (∀ a d w lp cp : ℚ,
        get_distance (Training.swimming a d w lp cp) = a * 1.38 / 1000) :=
  ⟨fun _ _ _ => rfl, fun _ _ _ _ => rfl, fun _ _ _ _ _ => rfl⟩

/-- C5: for every Swimming record with nonzero duration, `get_mean_speed`
is `length_pool * count_pool / 1000 / duration`, and the result does not
depend on `action` (hence not on `get_distance`, which is a function of
`action` alone). -/
theorem swimming_mean_speed_pool_geometry (a d w lp cp : ℚ) (hd : d ≠ 0) :
    get_mean_speed (Training.swimming a d w lp cp) = .ok (lp * cp / 1000 / d)
    ∧ ∀ a₂ : ℚ, get_mean_speed (Training.swimming a₂ d w lp cp)
        = get_mean_speed (Training.swimming a d w lp cp) := by
  constructor
  · simp [get_mean_speed, hd, M_IN_KM]
  · intro a₂
    simp [get_mean_speed]

/-- Witness for C5 at the driver's swimming package. -/
theorem swimming_mean_speed_pool_geometry_witness :
    get_mean_speed (Training.swimming 720 1 80 25 40)
      = .ok (25 * 40 / 1000 / 1) :=
  (swimming_mean_speed_pool_geometry 720 1 80 25 40 (by norm_num)).1

/-- C4: for every SportsWalking record with nonzero height and a defined
mean speed (hence nonzero duration), `get_spent_calories` is
`(0.035*weight + floor(speed^2 / height) * 0.029 * weight) * duration * 60`,
with the quotient floored toward negative infinity before scaling. -/
theorem sportsWalking_spent_calories_floor (a d w h : ℚ) (hh : h ≠ 0) (v : ℚ)
    (hv : get_mean_speed (Training.sportsWalking a d w h) = .ok v) :
    get_spent_calories (Training.sportsWalking a d w h)
      = .ok ((0.035 * w + (⌊v ^ 2 / h⌋ : ℚ) * 0.029 * w) * d * 60) := by
  simp only [get_spent_calories, hv]
  simp [hh, RATE_WEIGHT, FACTOR_WALK, MINUTES_IN_HOUR]

/-- Witness for C4 at a record with fractional quotient: mean speed 1.95,
height 7, so `1.95^2/7 = 0.5432...` floors to 0 and the walking term
vanishes, leaving `0.035*75*60 = 157.5`. -/
theorem sportsWalking_spent_calories_floor_witness :
    get_spent_calories (Training.sportsWalking 3000 1 75 7)
        = .ok ((0.035 * 75 + ((⌊((1.95 : ℚ)) ^ 2 / 7⌋ : ℤ) : ℚ)
          * 0.029 * 75) * 1 * 60)
    ∧ ((0.035 * 75 + ((⌊((1.95 : ℚ)) ^ 2 / 7⌋ : ℤ) : ℚ) * 0.029 * 75)
        * 1 * 60 : ℚ) = 157.5 := by
  constructor
  · exact sportsWalking_spent_calories_floor 3000 1 75 7 (by norm_num) 1.95
      (by simp [get_mean_speed, get_distance, Training.LEN_STEP,
            Training.action, Training.duration, M_IN_KM];
          norm_num)
  · norm_num [Int.floor_eq_zero_iff]

/-- C9: for every record whose speed-relevant numeric inputs are
non-negative and whose duration is positive, `get_mean_speed` succeeds with
a non-negative value. -/
theorem mean_speed_nonneg (t : Training) (hn : speedInputsNonneg t)
    (hd : 0 < t.duration) :
    ∃ v, get_mean_speed t = .ok v ∧ 0 ≤ v := by
  cases t with
  | base a d w =>
      have hd' : d ≠ 0 := by simpa [Training.duration] using hd.ne'
      have hdp : (0:ℚ) < d := by simpa [Training.duration] using hd
      have ha : (0:ℚ) ≤ a := hn
      refine ⟨get_distance (Training.base a d w) / d, ?_, ?_⟩
      · simp [get_mean_speed, Training.duration, hd']
      · simp only [get_distance, Training.action, Training.LEN_STEP, M_IN_KM]
        positivity
  | running a d w =>
      have hd' : d ≠ 0 := by simpa [Training.duration] using hd.ne'
      have hdp : (0:ℚ) < d := by simpa [Training.duration] using hd
      have ha : (0:ℚ) ≤ a := hn
      refine ⟨get_distance (Training.running a d w) / d, ?_, ?_⟩
      · simp [get_mean_speed, Training.duration, hd']
      · simp only [get_distance, Training.action, Training.LEN_STEP, M_IN_KM]
        positivity
  | sportsWalking a d w h =>
      have hd' : d ≠ 0 := by simpa [Training.duration] using hd.ne'
      have hdp : (0:ℚ) < d := by simpa [Training.duration] using hd
      have ha : (0:ℚ) ≤ a := hn
      refine ⟨get_distance (Training.sportsWalking a d w h) / d, ?_, ?_⟩
      · simp [get_mean_speed, Training.duration, hd']
      · simp only [get_distance, Training.action, Training.LEN_STEP, M_IN_KM]
        positivity
  | swimming a d w lp cp =>
      obtain ⟨ha, hlp, hcp⟩ := hn
      have hd' : d ≠ 0 := by simpa [Training.duration] using hd.ne'
      have hdp : (0:ℚ) < d := by simpa [Training.duration] using hd
      refine ⟨lp * cp / M_IN_KM / d, ?_, ?_⟩
      · simp [get_mean_speed, hd']
      · simp only [M_IN_KM]
        positivity

/-- Witness for C9 at the driver's running package. -/
theorem mean_speed_nonneg_witness :
    ∃ v, get_mean_speed (Training.running 15000 1 75) = .ok v ∧ 0 ≤ v :=
  mean_speed_nonneg (Training.running 15000 1 75)
    (by norm_num [speedInputsNonneg]) (by norm_num [Training.duration])

/-- C3: `read_package` fails exactly when the code is not one of "SWM",
"RUN", "WLK" or the parameter count differs from the chosen constructor's
arity (5, 3, 4 respectively), and every failure is the single
`invalidWorkoutData` error carrying the offending code and parameter
list. -/
theorem read_package_error_characterization (workout_type : String)
    (data : List ℚ) :
    ((∃ e, read_package workout_type data = .error e) ↔
      ¬ ((workout_type = "SWM" ∧ data.length = 5)
        ∨ (workout_type = "RUN" ∧ data.length = 3)
        ∨ (workout_type = "WLK" ∧ data.length = 4)))
    ∧ ∀ e, read_package workout_type data = .error e →
        e = .invalidWorkoutData workout_type data := by
  by_cases h1 : workout_type = "SWM"
  · subst h1
    rcases data with _ | ⟨a, _ | ⟨b, _ | ⟨c, _ | ⟨d4, _ | ⟨d5, _ | ⟨d6, r⟩⟩⟩⟩⟩⟩ <;>
      simp [read_package]
  · by_cases h2 : workout_type = "RUN"
    · subst h2
      rcases data with _ | ⟨a, _ | ⟨b, _ | ⟨c, _ | ⟨d4, _ | ⟨d5, _ | ⟨d6, r⟩⟩⟩⟩⟩⟩ <;>
        simp [read_package]
    · by_cases h3 : workout_type = "WLK"
      · subst h3
        rcases data with _ | ⟨a, _ | ⟨b, _ | ⟨c, _ | ⟨d4, _ | ⟨d5, _ | ⟨d6, r⟩⟩⟩⟩⟩⟩ <;>
          simp [read_package]
      · simp [read_package, h1, h2, h3]

/-- Witness for C3: the spec's unknown-code example. -/
theorem read_package_error_characterization_witness :
    read_package "XYZ" [1, 1, 1]
      = .error (.invalidWorkoutData "XYZ" [1, 1, 1]) := by
  obtain ⟨hiff, hpay⟩ := read_package_error_characterization "XYZ" [1, 1, 1]
  obtain ⟨e, he⟩ := hiff.mpr (by simp)
  rw [hpay e he] at he
  exact he

/-- C10: no constructor validates the divisor invariants.  A record with
duration 0 (any variant) is constructed successfully by `read_package`, and
the division-by-zero failure only surfaces when `get_mean_speed` is called;
a SportsWalking record with height 0 is likewise constructed successfully,
and the failure surfaces in `get_spent_calories`. -/
theorem no_divisor_validation :
    (∀ a w : ℚ, read_package "RUN" [a, 0, w] = .ok (Training.running a 0 w)
      ∧ get_mean_speed (Training.running a 0 w) = .error .zeroDivision)
    ∧ (∀ a w h : ℚ,
        read_package "WLK" [a, 0, w, h] = .ok (Training.sportsWalking a 0 w h)
        ∧ get_mean_speed (Training.sportsWalking a 0 w h)
            = .error .zeroDivision)
    ∧ (∀ a w lp cp : ℚ,
        read_package "SWM" [a, 0, w, lp, cp]
            = .ok (Training.swimming a 0 w lp cp)
        ∧ get_mean_speed (Training.swimming a 0 w lp cp)
            = .error .zeroDivision)
    ∧ (∀ a d w : ℚ, d ≠ 0 →
        read_package "WLK" [a, d, w, 0] = .ok (Training.sportsWalking a d w 0)
        ∧ get_spent_calories (Training.sportsWalking a d w 0)
            = .error .zeroDivision) := by
  refine ⟨fun a w => ⟨rfl, ?_⟩, fun a w h => ⟨rfl, ?_⟩,
    fun a w lp cp => ⟨rfl, ?_⟩, fun a d w hd => ⟨rfl, ?_⟩⟩
  · simp [get_mean_speed, Training.duration]
  · simp [get_mean_speed, Training.duration]
  · simp [get_mean_speed]
  · have hv : get_mean_speed (Training.sportsWalking a d w 0)
        = .ok (get_distance (Training.sportsWalking a d w 0) / d) := by
      simp [get_mean_speed, Training.duration, hd]
    simp only [get_spent_calories, hv]
    simp

/-- Witness for C10: the spec's walking package with height replaced by 0
and a nonzero duration. -/
theorem no_divisor_validation_witness :
    read_package "WLK" [9000, 1, 75, 0]
        = .ok (Training.sportsWalking 9000 1 75 0)
    ∧ get_spent_calories (Training.sportsWalking 9000 1 75 0)
        = .error .zeroDivision :=
  no_divisor_validation.2.2.2 9000 1 75 (by norm_num)

/-- C8: calling `get_spent_calories` on a direct instance of the base class
raises NotImplementedError whose message names the class ("Training"); that
is the only source of a NotImplementedError (neither `get_mean_speed` nor
the three concrete variants nor `show_training_info` on a non-base record
ever produce one). -/
theorem not_implemented_only_on_base :
    (∀ a d w : ℚ, get_spent_calories (Training.base a d w)
      = .error (.notImplementedError
          ("Определить метод get_spent_calories в "
            ++ Training.className (Training.base a d w))))
    ∧ (∀ t s, get_spent_calories t = .error (.notImplementedError s) →
        ∃ a d w : ℚ, t = Training.base a d w)
    ∧ (∀ t s, get_mean_speed t ≠ .error (.notImplementedError s))
    ∧ (∀ t s, show_training_info t = .error (.notImplementedError s) →
        ∃ a d w : ℚ, t = Training.base a d w) := by
  have hms : ∀ t s, get_mean_speed t ≠ .error (.notImplementedError s) := by
    intro t s
    cases t <;> simp [get_mean_speed] <;> split_ifs <;> simp
  have hsc : ∀ t s, get_spent_calories t = .error (.notImplementedError s) →
      ∃ a d w : ℚ, t = Training.base a d w := by
    intro t s h
    cases t with
    | base a d w => exact ⟨a, d, w, rfl⟩
    | running a d w =>
        exfalso
        simp only [get_spent_calories] at h
        cases hv : get_mean_speed (Training.running a d w) with
        | error e =>
            rw [hv] at h
            simp only [Except.error.injEq] at h
            rw [h] at hv
            exact hms _ _ hv
        | ok v => rw [hv] at h; exact Except.noConfusion h
    | sportsWalking a d w ht =>
        exfalso
        simp only [get_spent_calories] at h
        cases hv : get_mean_speed (Training.sportsWalking a d w ht) with
        | error e =>
            rw [hv] at h
            simp only [Except.error.injEq] at h
            rw [h] at hv
            exact hms _ _ hv
        | ok v =>
            rw [hv] at h
            by_cases hh : ht = 0 <;> simp [hh] at h
    | swimming a d w lp cp =>
        exfalso
        simp only [get_spent_calories] at h
        cases hv : get_mean_speed (Training.swimming a d w lp cp) with
        | error e =>
            rw [hv] at h
            simp only [Except.error.injEq] at h
            rw [h] at hv
            exact hms _ _ hv
        | ok v => rw [hv] at h; exact Except.noConfusion h
  refine ⟨fun a d w => rfl, hsc, hms, ?_⟩
  intro t s h
  simp only [show_training_info] at h
  cases hv : get_mean_speed t with
  | error e =>
      rw [hv] at h
      simp only [Except.error.injEq] at h
      rw [h] at hv
      exact absurd hv (hms _ _)
  | ok v =>
      rw [hv] at h
      cases hc : get_spent_calories t with
      | error e =>
          rw [hc] at h
          simp only [Except.error.injEq] at h
          rw [h] at hc
          exact hsc _ _ hc
      | ok c => rw [hc] at h; exact Except.noConfusion h

/-- Witness for C8 at a concrete base-class record. -/
theorem not_implemented_only_on_base_witness :
    get_spent_calories (Training.base 500 1 70)
      = .error (.notImplementedError
          "Определить метод get_spent_calories в Training")
    ∧ ∃ a d w : ℚ, Training.base (500 : ℚ) 1 70 = Training.base a d w := by
  constructor
  · exact not_implemented_only_on_base.1 500 1 70
  · exact not_implemented_only_on_base.2.1 (Training.base 500 1 70)
      "Определить метод get_spent_calories в Training"
      (not_implemented_only_on_base.1 500 1 70)

/-- Evaluation of `formatFix3` at 123.4567 (rounds up at the third
decimal). -/
theorem fmt_1234567 : formatFix3 123.4567 = "123.457" := by
  have h : roundHalfEven ((123.4567 : ℚ) * 1000) = 123457 := by
    norm_num [roundHalfEven]
  simp only [formatFix3, h]
  decide

/-- Evaluation of `get_message` at the report of the driver's running
package. -/
theorem run_message_eval :
    get_message ⟨"Running", 1, 9.75, 9.75, 699.75⟩
      = "Тип тренировки: Running; Длительность: 1.000 ч.; Дистанция: 9.750 км; Ср. скорость: 9.750 км/ч; Потрачено ккал: 699.750." := by
  simp only [get_message, fmt_one, fmt_975, fmt_69975]
  decide

/-- C1 (amended): `read_package "RUN" [15000, 1, 75]` constructs a Running
record whose report has distance 9.75 km, mean speed 9.75 km/h and calories
`(18*9.75 - 20)*75/1000*1*60 = 699.75`, and whose formatted message ends
with the calories field rendered as `699.750` — under the source's label
`"Потрачено ккал:"` (the code's Russian label whose English gloss is
"Calories burned"). -/
theorem run_package_report_values :
    read_package "RUN" [15000, 1, 75] = .ok (Training.running 15000 1 75)
    ∧ get_distance (Training.running 15000 1 75) = 9.75
    ∧ get_mean_speed (Training.running 15000 1 75) = .ok 9.75
    ∧ get_spent_calories (Training.running 15000 1 75) = .ok 699.75
    ∧ ((18 * 9.75 - 20) * 75 / 1000 * 1 * 60 : ℚ) = 699.75
    ∧ show_training_info (Training.running 15000 1 75)
        = .ok ⟨"Running", 1, 9.75, 9.75, 699.75⟩
    ∧ hasSuffixStr (get_message ⟨"Running", 1, 9.75, 9.75, 699.75⟩)
        "Потрачено ккал: 699.750." = true := by
  have hd : get_distance (Training.running 15000 1 75) = 9.75 := by
    norm_num [get_distance, Training.LEN_STEP, Training.action, M_IN_KM]
  have hv : get_mean_speed (Training.running 15000 1 75) = .ok 9.75 := by
    simp [get_mean_speed, Training.duration, hd]
  have hc : get_spent_calories (Training.running 15000 1 75) = .ok 699.75 := by
    simp only [get_spent_calories, hv]
    norm_num [RATE_CALORIE, CORRECT_CALORIE, M_IN_KM, MINUTES_IN_HOUR]
  have hinfo : show_training_info (Training.running 15000 1 75)
      = .ok ⟨"Running", 1, 9.75, 9.75, 699.75⟩ := by
    simp only [show_training_info, hv, hc]
    simp [Training.className, Training.duration, hd]
  refine ⟨rfl, hd, hv, hc, by norm_num, hinfo, ?_⟩
  rw [run_message_eval]
  decide

/-- C1 counterexample: the message produced for the running package does
not end with `"Calories burned: 699.750."` — the source's template label is
Russian. -/
theorem run_report_message_not_english :
    read_package "RUN" [15000, 1, 75] = .ok (Training.running 15000 1 75)
    ∧ show_training_info (Training.running 15000 1 75)
        = .ok ⟨"Running", 1, 9.75, 9.75, 699.75⟩
    ∧ hasSuffixStr (get_message ⟨"Running", 1, 9.75, 9.75, 699.75⟩)
        "Calories burned: 699.750." = false := by
  have hd : get_distance (Training.running 15000 1 75) = 9.75 := by
    norm_num [get_distance, Training.LEN_STEP, Training.action, M_IN_KM]
  have hv : get_mean_speed (Training.running 15000 1 75) = .ok 9.75 := by
    simp [get_mean_speed, Training.duration, hd]
  have hc : get_spent_calories (Training.running 15000 1 75) = .ok 699.75 := by
    simp only [get_spent_calories, hv]
    norm_num [RATE_CALORIE, CORRECT_CALORIE, M_IN_KM, MINUTES_IN_HOUR]
  have hinfo : show_training_info (Training.running 15000 1 75)
      = .ok ⟨"Running", 1, 9.75, 9.75, 699.75⟩ := by
    simp only [show_training_info, hv, hc]
    simp [Training.className, Training.duration, hd]
  refine ⟨rfl, hinfo, ?_⟩
  rw [run_message_eval]
  decide

/-- C2 counterexample: at the running report, `get_message` does not
produce the English template instance the claim asserts. -/
theorem info_message_not_english_template :
    get_message ⟨"Running", 1, 9.75, 9.75, 699.75⟩
      ≠ "Workout type: Running; Duration: 1.000 h; Distance: 9.750 km; Avg speed: 9.750 km/h; Calories burned: 699.750." := by
  rw [run_message_eval]
  decide

/-- C2 (amended): `get_message` always instantiates the source's fixed
template `'Тип тренировки: {}; Длительность: {} ч.; Дистанция: {} км;
Ср. скорость: {} км/ч; Потрачено ккал: {}.'`, and each of the four numeric
fields is rendered with exactly 3 decimal digits regardless of
magnitude. -/
theorem get_message_template_three_decimals :
    (∀ m : InfoMessage, get_message m =
      "Тип тренировки: " ++ m.training_type ++
      "; Длительность: " ++ formatFix3 m.duration ++
      " ч.; Дистанция: " ++ formatFix3 m.distance ++
      " км; Ср. скорость: " ++ formatFix3 m.speed ++
      " км/ч; Потрачено ккал: " ++ formatFix3 m.calories ++ ".")
    ∧ (∀ q : ℚ, (decimalPart (formatFix3 q)).length = 3
        ∧ ∀ c ∈ decimalPart (formatFix3 q), c.isDigit = true) := by
  constructor
  · intro m
    rfl
  · intro q
    obtain ⟨x, k1, k2, k3, hk1, hk2, hk3, hq⟩ := formatFix3_shape q
    have h1 := digitChar_props k1 hk1
    have h2 := digitChar_props k2 hk2
    have h3 := digitChar_props k3 hk3
    rw [hq, decimalPart_append3 x _ _ _ h1.2 h2.2 h3.2]
    refine ⟨rfl, ?_⟩
    intro c hc
    rcases List.mem_cons.mp hc with rfl | hc
    · exact h1.1
    rcases List.mem_cons.mp hc with rfl | hc
    · exact h2.1
    rcases List.mem_cons.mp hc with rfl | hc
    · exact h3.1
    exact absurd hc (List.not_mem_nil c)

/-- Witness for C2 at a value whose third decimal is produced by rounding
up. -/
theorem get_message_template_three_decimals_witness :
    (decimalPart (formatFix3 123.4567)).length = 3
    ∧ Char.isDigit '4' = true := by
  have h := get_message_template_three_decimals.2 123.4567
  refine ⟨h.1, h.2 '4' ?_⟩
  rw [fmt_1234567]
  decide

/-- C6: `read_package "SWM" [720, 1, 80, 25, 40]` constructs a Swimming
record with distance `720*1.38/1000 = 0.9936` km (step length 1.38), mean
speed `25*40/1000/1 = 1`, calories `(1 + 1.1)*2*80 = 336`; in general
swimming calories are `(meanSpeed + 1.1) * 2 * weight`. -/
theorem swm_package_report_values :
    read_package "SWM" [720, 1, 80, 25, 40]
        = .ok (Training.swimming 720 1 80 25 40)
    ∧ get_distance (Training.swimming 720 1 80 25 40) = 0.9936
    ∧ (720 : ℚ) * 1.38 / 1000 = 0.9936
    ∧ get_mean_speed (Training.swimming 720 1 80 25 40) = .ok 1
    ∧ get_spent_calories (Training.swimming 720 1 80 25 40) = .ok 336
    ∧ ((1 : ℚ) + 1.1) * 2 * 80 = 336
    ∧ ∀ (a d w lp cp v : ℚ),
        get_mean_speed (Training.swimming a d w lp cp) = .ok v →
        get_spent_calories (Training.swimming a d w lp cp)
          = .ok ((v + 1.1) * 2 * w) := by
  have hgen : ∀ (a d w lp cp v : ℚ),
      get_mean_speed (Training.swimming a d w lp cp) = .ok v →
      get_spent_calories (Training.swimming a d w lp cp)
        = .ok ((v + 1.1) * 2 * w) := by
    intro a d w lp cp v hv
    simp only [get_spent_calories, hv]
    norm_num [CORRECT_SPEED, FACTOR_SPEED]
  have hv : get_mean_speed (Training.swimming 720 1 80 25 40) = .ok 1 := by
    simp [get_mean_speed, M_IN_KM]
    norm_num
  refine ⟨rfl, ?_, by norm_num, hv, ?_, by norm_num, hgen⟩
  · norm_num [get_distance, Training.LEN_STEP, Training.action, M_IN_KM]
  · have h := hgen 720 1 80 25 40 1 hv
    rw [h]
    norm_num

/-- Witness for C6's general swimming-calorie clause at a record with
duration 2 (mean speed `4*5/1000/2`). -/
theorem swm_package_report_values_witness :
    get_spent_calories (Training.swimming 1 2 3 4 5)
      = .ok ((4 * 5 / 1000 / 2 + 1.1) * 2 * 3) := by
  refine swm_package_report_values.2.2.2.2.2.2 1 2 3 4 5 (4 * 5 / 1000 / 2) ?_
  simp [get_mean_speed, M_IN_KM]

end FitnessTracker
